import Mathlib

/-!
Shallow embedding of the transaction-normalization engine of the
bitcoin-mempool-app repository (`src/app/api/get-bitcoin-node/route.ts` and
`src/app/api/get-mempool-txs/route.ts`).

Raw upstream payloads are modelled as Lean structures mirroring the
TypeScript interfaces (`RawInput`, `RawOutput`, `RawTransaction`, ...); the
inline normalization code of the two GET handlers is modelled as pure
functions, one per code path:

* `normalizeNodeTx`        — get-bitcoin-node, Node-RPC single-tx path
* `normalizeExplorerTx`    — get-bitcoin-node, Explorer-shaped single-tx path
* `normalizeNodeTxRecent`  — get-mempool-txs, Node-RPC per-tx loop body
* `normalizeExplorerTxRecent` — get-mempool-txs, Explorer-shaped per-tx map

JavaScript truthiness on optional strings (`s || undefined`) and numbers
(`n || 0`, `n ? e : 0`) is modelled explicitly.  Monetary `value` fields are
carried in integer satoshis: the floating-point fractional-coin conversion
`Number((v * 1e8).toFixed(0))` of the source is abstracted as the identity
on already-integral satoshi amounts (floating point does not embed).
`Buffer.from(hex, 'hex')` is modelled with Node's actual semantics: it
never throws on malformed hex but truncates the decode at the first
invalid byte pair (and drops an odd trailing character), so the source's
`try/catch` around it has an unreachable `catch` branch, modelled as dead
code.
-/

namespace MempoolApp

/-- Mirrors the nested `scriptPubKey` object of the TS `RawInput.prevout` /
`RawOutput` interfaces: `{ address?: string; type?: string; asm?: string }`. -/
structure ScriptPubKeyObj where
  address : Option String := none
  type : Option String := none
  asm : Option String := none
deriving DecidableEq, Repr

/-- Mirrors the TS `RawInput.prevout` field.  `value` is in satoshis (see
module comment). -/
structure Prevout where
  scriptPubKey : Option ScriptPubKeyObj := none
  scriptpubkey_address : Option String := none
  scriptpubkey_type : Option String := none
  value : Option Nat := none
deriving DecidableEq, Repr

/-- Mirrors the TS `RawInput` interface. -/
structure RawInput where
  prevout : Option Prevout := none
  txinwitness : Option (List String) := none
  witness : Option (List String) := none
deriving DecidableEq, Repr

/-- Mirrors the TS `RawOutput` interface.  `value` is in satoshis. -/
structure RawOutput where
  scriptPubKey : Option ScriptPubKeyObj := none
  scriptpubkey_address : Option String := none
  scriptpubkey_type : Option String := none
  scriptpubkey_asm : Option String := none
  value : Option Nat := none
deriving DecidableEq, Repr

/-- Mirrors the TS `RawTransaction.status` field:
`{ confirmed: boolean; block_height?: number; confirmations?: number }`. -/
structure RawStatus where
  confirmed : Bool
  block_height : Option Nat := none
  confirmations : Option Nat := none
deriving DecidableEq, Repr

/-- Mirrors the TS `RawTransaction` interface.  Upstream counts
(`confirmations`, `size`, heights) are non-negative, so they are carried as
`Option Nat`. -/
structure RawTransaction where
  txid : String := ""
  fee : Option Nat := none
  size : Option Nat := none
  vin : List RawInput := []
  vout : List RawOutput := []
  confirmations : Option Nat := none
  version : Option Nat := none
  locktime : Option Nat := none
  blockheight : Option Nat := none
  status : Option RawStatus := none
deriving DecidableEq, Repr

/-- Normalized input record: `{ address?: string; amount: number; scriptType?: string }`. -/
structure NormInput where
  address : Option String := none
  amount : Nat := 0
  scriptType : Option String := none
deriving DecidableEq, Repr

/-- Normalized output record:
`{ address?: string; amount: number; scriptType?: string; opReturn?: string }`. -/
structure NormOutput where
  address : Option String := none
  amount : Nat := 0
  scriptType : Option String := none
  opReturn : Option String := none
deriving DecidableEq, Repr

/-- Witness accounting result: `{ count: number; size: number }`. -/
structure WitnessInfo where
  count : Nat
  size : Nat
deriving DecidableEq, Repr

/-- Mirrors the TS `TransactionResponse` interface (the canonical record). -/
structure TransactionResponse where
  txid : String
  fee : Nat
  size : Nat
  status : String
  confirmations : Nat
  version : Nat
  locktime : Nat
  blockheight : Option Nat
  walletType : String
  witness : WitnessInfo
  inputs : List NormInput
  outputs : List NormOutput
  source : String
deriving DecidableEq, Repr

/-- Mirrors the TS `MempoolStats` interface of get-bitcoin-node. -/
structure MempoolStats where
  count : Nat
  total_fee : Nat
  vsize : Nat
  source : String
deriving DecidableEq, Repr

/-- Mirrors the `getmempoolinfo` RPC result object as read by the summary
path of get-bitcoin-node (`mempoolInfo.size`, `mempoolInfo.bytes`). -/
structure MempoolInfoResult where
  size : Option Nat := none
  bytes : Option Nat := none
deriving DecidableEq, Repr

/-- JavaScript truthiness on an optional string: models `s || undefined`
(the empty string is falsy). -/
def jsStr : Option String → Option String
  | some s => if s = "" then none else some s
  | none => none

/-- Models `a || b || undefined` on optional strings. -/
def jsOrStr (a b : Option String) : Option String :=
  match jsStr a with
  | some s => some s
  | none => jsStr b

/-- Models `n || 0` (and, for naturals, also `n ? n : 0`) on an optional
non-negative number. -/
def jsNum : Option Nat → Nat
  | some n => n
  | none => 0

/-- Value of a single hex digit; `none` when the character is not a hex
digit. -/
def hexDigitVal (c : Char) : Option Nat :=
  if '0' ≤ c ∧ c ≤ '9' then some (c.toNat - '0'.toNat)
  else if 'a' ≤ c ∧ c ≤ 'f' then some (c.toNat - 'a'.toNat + 10)
  else if 'A' ≤ c ∧ c ≤ 'F' then some (c.toNat - 'A'.toNat + 10)
  else none

/-- Decodes a list of hex characters two at a time, truncating at the
first pair containing a non-hex character and dropping an odd trailing
character, exactly like Node's `Buffer.from(s, 'hex')` — which never
throws. -/
def bufferFromHexChars : List Char → List Nat
  | [] => []
  | [_] => []
  | c1 :: c2 :: rest =>
    match hexDigitVal c1, hexDigitVal c2 with
    | some hi, some lo => (16 * hi + lo) :: bufferFromHexChars rest
    | _, _ => []

/-- Models Node's `Buffer.from(s, 'hex')`: a total, truncating decoder. -/
def bufferFromHex (s : String) : List Nat :=
  bufferFromHexChars s.data

/-- Models `buffer.toString('utf8').replace(/[^\x20-\x7E]/g, '')`: every
byte in the printable-ASCII range 0x20–0x7E decodes to itself and survives
the strip; every other byte contributes only characters outside that range
(a multi-byte code point above 0x7E or the replacement character), all of
which the regex removes. -/
def printableAscii (bytes : List Nat) : String :=
  String.mk (bytes.filterMap fun b =>
    if 0x20 ≤ b ∧ b ≤ 0x7E then some (Char.ofNat b) else none)

/-- Split accumulator over the characters of a string: cut at every space
character, keeping empty segments, exactly like the JS `s.split(' ')`. -/
def splitOnSpaceAux : List Char → List Char → List String
  | [], acc => [String.mk acc.reverse]
  | c :: cs, acc =>
    if c = ' ' then String.mk acc.reverse :: splitOnSpaceAux cs []
    else splitOnSpaceAux cs (c :: acc)

/-- Models the JS `s.split(' ')` used on the script disassembly. -/
def splitOnSpace (s : String) : List String :=
  splitOnSpaceAux s.data []

/-- Models the OP_RETURN payload extraction applied to a disassembly string
`a` (source lines 167–176 of get-bitcoin-node, identical in the other three
sites): split on a space, require the first token to be literally
`OP_RETURN` and the second token to be truthy, best-effort decode the
second token (`Buffer.from(hex, 'hex')` truncating, never throwing), strip
to printable ASCII, and fall back to the raw hex token when the printable
text is empty (`|| hex`).  The source's `catch` branch — falling back to
the whole disassembly — is unreachable because `Buffer.from` never throws,
and is therefore dead code with no counterpart here. -/
def opReturnFromAsm (a : String) : Option String :=
  match splitOnSpace a with
  | p0 :: p1 :: _ =>
    if p0 = "OP_RETURN" ∧ p1 ≠ "" then
      some (
        let text := printableAscii (bufferFromHex p1)
        if text = "" then p1 else text)
    else none
  | _ => none

/-- OP_RETURN detection for the Node-RPC-shaped output (nested
`scriptPubKey.type` / `scriptPubKey.asm`); the `asm` string must be truthy. -/
def opReturnNode (output : RawOutput) : Option String :=
  match output.scriptPubKey with
  | some spk =>
    if spk.type = some "nulldata" then
      match spk.asm with
      | some a => if a ≠ "" then opReturnFromAsm a else none
      | none => none
    else none
  | none => none

/-- OP_RETURN detection for the Explorer-shaped output (flat
`scriptpubkey_type` / `scriptpubkey_asm`). -/
def opReturnExplorer (output : RawOutput) : Option String :=
  if output.scriptpubkey_type = some "nulldata" then
    match output.scriptpubkey_asm with
    | some a => if a ≠ "" then opReturnFromAsm a else none
    | none => none
  else none

/-- Witness item count over the per-input optional stackList:
`vin.reduce((sum, input) => sum + (stack?.length || 0), 0)`. -/
def witnessCount (stackList : List (Option (List String))) : Nat :=
  stackList.foldl (fun sum s => sum + (s.getD []).length) 0

/-- Witness byte size over the per-input optional stackList: for each input
carrying a stack, join the hex strings and add `Math.ceil(hex.length / 2)`. -/
def witnessSize (stackList : List (Option (List String))) : Nat :=
  stackList.foldl
    (fun sum s =>
      match s with
      | some items => sum + ((String.join items).length + 1) / 2
      | none => sum)
    0

/-- Pools script-type tags from inputs and outputs, deduplicates (the JS
`Set`), and drops absent tags (the `filter(type !== undefined)`). -/
def gatherScriptTypes (inputs : List NormInput) (outputs : List NormOutput) : List String :=
  ((inputs.map (fun i => i.scriptType) ++ outputs.map (fun o => o.scriptType)).eraseDups).filterMap id

/-- Wallet-type classification over the pooled tag list, in the source's
fixed branch order: Taproot, then SegWit v0, then Legacy, else Unknown. -/
def classifyWallet (scriptTypes : List String) : String :=
  if scriptTypes.contains "p2tr" then "Taproot"
  else if scriptTypes.contains "v0_p2wpkh" || scriptTypes.contains "v0_p2wsh" then "SegWit"
  else if scriptTypes.contains "p2pkh" || scriptTypes.contains "p2sh" then "Legacy"
  else "Unknown"

/-- Fee resolution of the Node-RPC paths (get-bitcoin-node lines 195–199,
get-mempool-txs lines 173–177): when the authoritative fee is 0 and both
lists are non-empty, derive the fee by value conservation, clamped at 0. -/
def resolveFee (fee0 : Nat) (inputs : List NormInput) (outputs : List NormOutput) : Nat :=
  if fee0 = 0 ∧ 0 < inputs.length ∧ 0 < outputs.length then
    let inputTotal := (inputs.map (fun i => i.amount)).sum
    let outputTotal := (outputs.map (fun o => o.amount)).sum
    if 0 ≤ (inputTotal : Int) - (outputTotal : Int) then
      ((inputTotal : Int) - (outputTotal : Int)).toNat
    else 0
  else fee0

/-- Input normalization of the Node-RPC paths (get-bitcoin-node lines
158–162, identically get-mempool-txs lines 130–134): nested
`prevout.scriptPubKey` fields; `value ? conv : 0` sends an absent or zero
value to 0. -/
def normInputNode (input : RawInput) : NormInput :=
  { address := jsStr ((input.prevout.bind fun p => p.scriptPubKey).bind fun s => s.address)
    amount :=
      match input.prevout.bind fun p => p.value with
      | some v => if v = 0 then 0 else v
      | none => 0
    scriptType := jsStr ((input.prevout.bind fun p => p.scriptPubKey).bind fun s => s.type) }

/-- Output normalization of the Node-RPC single-tx path (get-bitcoin-node
lines 164–184): `Number(((output.value ?? 0) * 1e8).toFixed(0)) || 0`
defaults an absent value to 0. -/
def normOutputNode (output : RawOutput) : NormOutput :=
  { address := jsStr (output.scriptPubKey.bind fun s => s.address)
    amount := jsNum output.value
    scriptType := jsStr (output.scriptPubKey.bind fun s => s.type)
    opReturn := opReturnNode output }

/-- Output normalization of the Node-RPC per-tx loop of get-mempool-txs
(lines 136–156): `output.value !== undefined ? conv : 0`. -/
def normOutputNodeRecent (output : RawOutput) : NormOutput :=
  { address := jsStr (output.scriptPubKey.bind fun s => s.address)
    amount :=
      match output.value with
      | some v => v
      | none => 0
    scriptType := jsStr (output.scriptPubKey.bind fun s => s.type)
    opReturn := opReturnNode output }

/-- Input normalization of the Explorer-shaped single-tx path of
get-bitcoin-node (lines 252–256): flat field takes precedence over the
nested one (`a || b || undefined`). -/
def normInputExplorer (input : RawInput) : NormInput :=
  { address :=
      jsOrStr (input.prevout.bind fun p => p.scriptpubkey_address)
        ((input.prevout.bind fun p => p.scriptPubKey).bind fun s => s.address)
    amount :=
      match input.prevout.bind fun p => p.value with
      | some v => if v = 0 then 0 else v
      | none => 0
    scriptType :=
      jsOrStr (input.prevout.bind fun p => p.scriptpubkey_type)
        ((input.prevout.bind fun p => p.scriptPubKey).bind fun s => s.type) }

/-- Output normalization of the Explorer-shaped single-tx path of
get-bitcoin-node (lines 258–280). -/
def normOutputExplorer (output : RawOutput) : NormOutput :=
  { address :=
      jsOrStr output.scriptpubkey_address (output.scriptPubKey.bind fun s => s.address)
    amount := jsNum output.value
    scriptType :=
      jsOrStr output.scriptpubkey_type (output.scriptPubKey.bind fun s => s.type)
    opReturn := opReturnExplorer output }

/-- Input normalization of the Explorer-shaped recent-transactions path of
get-mempool-txs (lines 230–234): flat fields only; `value || 0`. -/
def normInputExplorerRecent (input : RawInput) : NormInput :=
  { address := jsStr (input.prevout.bind fun p => p.scriptpubkey_address)
    amount := jsNum (input.prevout.bind fun p => p.value)
    scriptType := jsStr (input.prevout.bind fun p => p.scriptpubkey_type) }

/-- Output normalization of the Explorer-shaped recent-transactions path of
get-mempool-txs (lines 236–256). -/
def normOutputExplorerRecent (output : RawOutput) : NormOutput :=
  { address := jsStr output.scriptpubkey_address
    amount := jsNum output.value
    scriptType := jsStr output.scriptpubkey_type
    opReturn := opReturnExplorer output }

/-- Node-RPC single-transaction normalization of get-bitcoin-node (lines
104–230).  `mempoolFee` and `mempoolSize` are the fee (in satoshis) and
vsize taken from the preceding `getmempoolentry` lookup, both 0 when that
lookup yielded nothing (the initial `let fee = 0; let size = 0`). -/
def normalizeNodeTx (txid : String) (mempoolFee mempoolSize : Nat)
    (tx : RawTransaction) : TransactionResponse :=
  let inputs := tx.vin.map normInputNode
  let outputs := tx.vout.map normOutputNode
  { txid := txid
    fee := resolveFee mempoolFee inputs outputs
    size := mempoolSize
    status := if 0 < jsNum tx.confirmations then "confirmed" else "pending"
    confirmations := jsNum tx.confirmations
    version := jsNum tx.version
    locktime := jsNum tx.locktime
    blockheight := tx.blockheight
    walletType := classifyWallet (gatherScriptTypes inputs outputs)
    witness :=
      { count := witnessCount (tx.vin.map fun i => i.txinwitness)
        size := witnessSize (tx.vin.map fun i => i.txinwitness) }
    inputs := inputs
    outputs := outputs
    source := "Local Bitcoin Node" }

/-- Explorer-shaped single-transaction normalization of get-bitcoin-node
(lines 237–328): status from `data.status?.confirmed`, confirmations from
`data.status?.confirmations || 0`, block height copied from
`data.status?.block_height`, authoritative fee `data.fee || 0`; witness
stacks come from `input.witness || input.txinwitness` (an empty array is
truthy in JS, matching `Option.or`). -/
def normalizeExplorerTx (tx : RawTransaction) : TransactionResponse :=
  let inputs := tx.vin.map normInputExplorer
  let outputs := tx.vout.map normOutputExplorer
  { txid := tx.txid
    fee := jsNum tx.fee
    size := jsNum tx.size
    status := if (tx.status.map fun s => s.confirmed).getD false then "confirmed" else "pending"
    confirmations := jsNum (tx.status.bind fun s => s.confirmations)
    version := jsNum tx.version
    locktime := jsNum tx.locktime
    blockheight := tx.status.bind fun s => s.block_height
    walletType := classifyWallet (gatherScriptTypes inputs outputs)
    witness :=
      { count := witnessCount (tx.vin.map fun i => i.witness.or i.txinwitness)
        size := witnessSize (tx.vin.map fun i => i.witness.or i.txinwitness) }
    inputs := inputs
    outputs := outputs
    source := "Mempool.space" }

/-- Node-RPC per-transaction normalization of the get-mempool-txs loop
(lines 114–210).  `entryFee` is the fee (satoshis) read from the
`getrawmempool` entry for this txid, 0 when the entry is absent; block
height is only forwarded when the confirmation count is positive (line
194). -/
def normalizeNodeTxRecent (txid : String) (entryFee : Nat)
    (tx : RawTransaction) : TransactionResponse :=
  let inputs := tx.vin.map normInputNode
  let outputs := tx.vout.map normOutputNodeRecent
  { txid := txid
    fee := resolveFee entryFee inputs outputs
    size := jsNum tx.size
    status := if 0 < jsNum tx.confirmations then "confirmed" else "pending"
    confirmations := jsNum tx.confirmations
    version := jsNum tx.version
    locktime := jsNum tx.locktime
    blockheight :=
      if 0 < jsNum tx.confirmations then tx.status.bind fun s => s.block_height else none
    walletType := classifyWallet (gatherScriptTypes inputs outputs)
    witness :=
      { count := witnessCount (tx.vin.map fun i => i.txinwitness)
        size := witnessSize (tx.vin.map fun i => i.txinwitness) }
    inputs := inputs
    outputs := outputs
    source := "Local Bitcoin Node" }

/-- Explorer-shaped per-transaction normalization of the get-mempool-txs
map (lines 229–299): `confirmations: tx.status?.confirmed ? 1 : 0`, block
height copied from `tx.status?.block_height`; witness stacks come from
`input.witness` only. -/
def normalizeExplorerTxRecent (tx : RawTransaction) : TransactionResponse :=
  let inputs := tx.vin.map normInputExplorerRecent
  let outputs := tx.vout.map normOutputExplorerRecent
  { txid := tx.txid
    fee := jsNum tx.fee
    size := jsNum tx.size
    status := if (tx.status.map fun s => s.confirmed).getD false then "confirmed" else "pending"
    confirmations := if (tx.status.map fun s => s.confirmed).getD false then 1 else 0
    version := jsNum tx.version
    locktime := jsNum tx.locktime
    blockheight := tx.status.bind fun s => s.block_height
    walletType := classifyWallet (gatherScriptTypes inputs outputs)
    witness :=
      { count := witnessCount (tx.vin.map fun i => i.witness)
        size := witnessSize (tx.vin.map fun i => i.witness) }
    inputs := inputs
    outputs := outputs
    source := "Mempool.space" }

/-- Mempool-summary normalization of the Node-RPC branch of
get-bitcoin-node (lines 355–362): `count` from `mempoolInfo.size || 0`,
`total_fee` fixed to 0, `vsize` from `mempoolInfo.bytes || 0`. -/
def summarizeRpc (mempoolInfo : MempoolInfoResult) : MempoolStats :=
  { count := jsNum mempoolInfo.size
    total_fee := 0
    vsize := jsNum mempoolInfo.bytes
    source := "Local Bitcoin Node" }

/-! Helper lemmas shared by the claim theorems. -/

/-- Defaulting an optional natural with JS `|| 0` is `Option.getD 0`. -/
theorem jsNum_eq_getD (o : Option Nat) : jsNum o = o.getD 0 := by
  cases o <;> rfl

/-- Per-input byte contribution of the witness-size fold. -/
def stackBytes : Option (List String) → Nat
  | some items => ((String.join items).length + 1) / 2
  | none => 0

/-- The witness item count is the sum of the per-input stack lengths. -/
theorem witnessCount_eq_sum (stackList : List (Option (List String))) :
    witnessCount stackList = (stackList.map fun s => (s.getD []).length).sum := by
  suffices h : ∀ acc, stackList.foldl (fun sum s => sum + (s.getD []).length) acc =
      acc + (stackList.map fun s => (s.getD []).length).sum by
    simpa [witnessCount] using h 0
  induction stackList with
  | nil => intro acc; simp
  | cons s t ih => intro acc; simp [ih]; omega

/-- The witness byte size is the sum of the per-input byte contributions. -/
theorem witnessSize_eq_sum (stackList : List (Option (List String))) :
    witnessSize stackList = (stackList.map stackBytes).sum := by
  suffices h : ∀ acc, stackList.foldl
      (fun sum s =>
        match s with
        | some items => sum + ((String.join items).length + 1) / 2
        | none => sum) acc = acc + (stackList.map stackBytes).sum by
    simpa [witnessSize] using h 0
  induction stackList with
  | nil => intro acc; simp
  | cons s t ih =>
    intro acc
    cases s with
    | none => simp [stackBytes, ih]
    | some items =>
      simp [stackBytes, ih]
      omega

/-- The length of a joined list of strings is the sum of the lengths. -/
theorem length_join_eq_sum (l : List String) :
    (String.join l).length = (l.map String.length).sum := by
  suffices h : ∀ acc : String, (l.foldl (fun r s => r ++ s) acc).length =
      acc.length + (l.map String.length).sum by
    simpa [String.join] using h ""
  induction l with
  | nil => intro acc; simp
  | cons s t ih => intro acc; simp [ih, String.length_append]; omega

/-- C5: for every ordered sequence of inputs with optional witness stacks,
`witness.itemCount` is the sum of the stack lengths (a missing stack
contributing 0) and `witness.byteSize` is the sum, over the inputs, of
`ceil(totalHexChars / 2)` where `totalHexChars` is the length of the
per-input concatenation of the stack's hex strings; stacks
`["ab", "cdef"]` give 3 bytes, and the computation is total (no input can
make it fail). -/
theorem witness_accounting_correct (stackList : List (Option (List String))) :
    witnessCount stackList = (stackList.map fun s => (s.getD []).length).sum ∧
    witnessSize stackList =
      (stackList.map fun s => (((s.getD []).map String.length).sum + 1) / 2).sum ∧
    witnessSize [some ["ab", "cdef"]] = 3 := by
  refine ⟨witnessCount_eq_sum stackList, ?_, by decide⟩
  rw [witnessSize_eq_sum]
  have hfun : stackBytes =
      fun s : Option (List String) => (((s.getD []).map String.length).sum + 1) / 2 := by
    funext s
    cases s with
    | none => rfl
    | some items => simp [stackBytes, length_join_eq_sum]
  rw [hfun]

/-- C8: a witness record with item count 0 has byte size 0: every stack is
then absent or empty, and an empty stack joins to the empty string, whose
ceiling half-length is 0. -/
theorem witnessSize_zero_of_count_zero (stackList : List (Option (List String)))
    (h : witnessCount stackList = 0) : witnessSize stackList = 0 := by
  rw [witnessCount_eq_sum] at h
  rw [witnessSize_eq_sum]
  rw [List.sum_eq_zero_iff] at h ⊢
  intro x hx
  rcases List.mem_map.mp hx with ⟨s, hs, rfl⟩
  have hlen : (s.getD []).length = 0 := h _ (List.mem_map_of_mem _ hs)
  cases s with
  | none => rfl
  | some items =>
    have : items = [] := List.length_eq_zero.mp hlen
    subst this
    decide

/-- Witness for C8: a concrete stack list with no items has count 0 and,
by the theorem, byte size 0. -/
theorem witnessSize_zero_of_count_zero_witness :
    witnessCount [none, some []] = 0 ∧ witnessSize [none, some []] = 0 :=
  ⟨by decide, witnessSize_zero_of_count_zero [none, some []] (by decide)⟩

/-- The conservation branch of the fee resolver produces exactly the
input/output difference clamped at zero. -/
theorem resolveFee_zero_clamps (inputs : List NormInput) (outputs : List NormOutput)
    (hin : inputs ≠ []) (hout : outputs ≠ []) :
    (resolveFee 0 inputs outputs : Int) =
      max (((inputs.map fun i => i.amount).sum : Int) -
        ((outputs.map fun o => o.amount).sum : Int)) 0 := by
  simp only [resolveFee]
  rw [if_pos ⟨by trivial, List.length_pos.mpr hin, List.length_pos.mpr hout⟩]
  by_cases hle : 0 ≤ ((inputs.map fun i => i.amount).sum : Int) -
      ((outputs.map fun o => o.amount).sum : Int)
  · rw [if_pos hle, Int.toNat_of_nonneg hle, max_eq_left hle]
  · rw [if_neg hle, max_eq_right (le_of_lt (not_le.mp hle))]
    simp

/-- C1: in both Node-RPC paths, when the authoritative fee resolves to 0
and the input and output lists are non-empty, the reported fee is the sum
of the normalized input amounts minus the sum of the normalized output
amounts, clamped at zero; the fee is never negative and the computation is
total (no error is raised). -/
theorem nodePath_fee_conservation_clamped (txid : String) (mempoolSize : Nat)
    (tx : RawTransaction) (hin : tx.vin ≠ []) (hout : tx.vout ≠ []) :
    ((normalizeNodeTx txid 0 mempoolSize tx).fee : Int) =
      max ((((tx.vin.map normInputNode).map fun i => i.amount).sum : Int) -
        (((tx.vout.map normOutputNode).map fun o => o.amount).sum : Int)) 0 ∧
    ((normalizeNodeTxRecent txid 0 tx).fee : Int) =
      max ((((tx.vin.map normInputNode).map fun i => i.amount).sum : Int) -
        (((tx.vout.map normOutputNodeRecent).map fun o => o.amount).sum : Int)) 0 ∧
    0 ≤ ((normalizeNodeTx txid 0 mempoolSize tx).fee : Int) := by
  have h1 : tx.vin.map normInputNode ≠ [] := fun h => hin (List.map_eq_nil_iff.mp h)
  have h2 : tx.vout.map normOutputNode ≠ [] := fun h => hout (List.map_eq_nil_iff.mp h)
  have h3 : tx.vout.map normOutputNodeRecent ≠ [] := fun h => hout (List.map_eq_nil_iff.mp h)
  exact ⟨resolveFee_zero_clamps _ _ h1 h2, resolveFee_zero_clamps _ _ h1 h3,
    Int.natCast_nonneg _⟩

/-- Concrete transaction for the C1 witness: one input worth 500 satoshis,
one output worth 700 satoshis. -/
def txC1 : RawTransaction :=
  { txid := "c1"
    vin := [{ prevout := some { value := some 500 } }]
    vout := [{ value := some 700 }] }

/-- Witness for C1: on inputs summing to 500 and outputs summing to 700 the
clamp applies and both Node-RPC paths report fee 0. -/
theorem nodePath_fee_conservation_clamped_witness :
    ((normalizeNodeTx "c1" 0 0 txC1).fee : Int) =
      max ((((txC1.vin.map normInputNode).map fun i => i.amount).sum : Int) -
        (((txC1.vout.map normOutputNode).map fun o => o.amount).sum : Int)) 0 ∧
    (normalizeNodeTx "c1" 0 0 txC1).fee = 0 ∧
    (normalizeNodeTxRecent "c1" 0 txC1).fee = 0 :=
  ⟨(nodePath_fee_conservation_clamped "c1" 0 txC1 (by decide) (by decide)).1,
    by decide, by decide⟩

/-- C2: wallet classification over the pooled script-type tag list checks
Taproot (`p2tr`), then SegWit (`v0_p2wpkh` or `v0_p2wsh`), then Legacy
(`p2pkh` or `p2sh`) in this fixed order, first match winning; the set with
both `p2pkh` and `p2tr` classifies as Taproot, and an empty tag list — in
particular the one pooled from inputs and outputs with no tags — yields
Unknown. -/
theorem walletType_precedence (ts : List String) :
    ("p2tr" ∈ ts → classifyWallet ts = "Taproot") ∧
    ("p2tr" ∉ ts → ("v0_p2wpkh" ∈ ts ∨ "v0_p2wsh" ∈ ts) →
      classifyWallet ts = "SegWit") ∧
    ("p2tr" ∉ ts → "v0_p2wpkh" ∉ ts → "v0_p2wsh" ∉ ts →
      ("p2pkh" ∈ ts ∨ "p2sh" ∈ ts) → classifyWallet ts = "Legacy") ∧
    ("p2tr" ∉ ts → "v0_p2wpkh" ∉ ts → "v0_p2wsh" ∉ ts → "p2pkh" ∉ ts →
      "p2sh" ∉ ts → classifyWallet ts = "Unknown") ∧
    classifyWallet ["p2pkh", "p2tr"] = "Taproot" ∧
    classifyWallet [] = "Unknown" ∧
    classifyWallet (gatherScriptTypes [] []) = "Unknown" := by
  refine ⟨?_, ?_, ?_, ?_, by decide, by decide, by decide⟩
  · intro h; simp [classifyWallet, h]
  · intro h1 h2
    rcases h2 with h2 | h2 <;> simp [classifyWallet, h1, h2]
  · intro h1 h2 h3 h4
    rcases h4 with h4 | h4 <;> simp [classifyWallet, h1, h2, h3, h4]
  · intro h1 h2 h3 h4 h5
    simp [classifyWallet, h1, h2, h3, h4, h5]

/-- Witness for C2: applying the precedence theorem at concrete tag lists:
mixed legacy and Taproot tags give Taproot; a lone `v0_p2wsh` gives
SegWit. -/
theorem walletType_precedence_witness :
    classifyWallet ["p2pkh", "p2tr"] = "Taproot" ∧
    classifyWallet ["v0_p2wsh", "p2sh"] = "SegWit" :=
  ⟨(walletType_precedence ["p2pkh", "p2tr"]).1 (by decide),
    (walletType_precedence ["v0_p2wsh", "p2sh"]).2.1 (by decide) (Or.inr (by decide))⟩

/-- Concrete Explorer-shaped payload for the C3 counterexample: confirmed
with no `status.confirmations` field, as the Explorer upstream actually
responds. -/
def txC3 : RawTransaction :=
  { txid := "c3", status := some { confirmed := true } }

/-- Counterexample to C3 as stated: the Explorer-shaped adapter of
get-bitcoin-node accepts a payload with `status.confirmed = true` and no
`status.confirmations` field and produces status `confirmed` with
confirmations 0, so "status is Confirmed if and only if confirmations > 0"
fails. -/
theorem status_confirmations_iff_fails_explorer :
    ¬((normalizeExplorerTx txC3).status = "confirmed" ↔
      0 < (normalizeExplorerTx txC3).confirmations) := by
  decide

/-- C3 (amended): in the Node-RPC paths the canonical record satisfies the
invariant: status is `confirmed` exactly when confirmations is positive,
and status is `pending` exactly when confirmations is 0 (confirmations is a
natural number, hence non-negative).  The Explorer-shaped path of
get-bitcoin-node copies `status.confirmed` and `status.confirmations`
independently, so the equivalence does not hold there. -/
theorem status_confirmations_iff_node (txid : String) (f s : Nat) (tx : RawTransaction) :
    ((normalizeNodeTx txid f s tx).status = "confirmed" ↔
      0 < (normalizeNodeTx txid f s tx).confirmations) ∧
    ((normalizeNodeTx txid f s tx).status = "pending" ↔
      (normalizeNodeTx txid f s tx).confirmations = 0) ∧
    ((normalizeNodeTxRecent txid f tx).status = "confirmed" ↔
      0 < (normalizeNodeTxRecent txid f tx).confirmations) ∧
    ((normalizeNodeTxRecent txid f tx).status = "pending" ↔
      (normalizeNodeTxRecent txid f tx).confirmations = 0) := by
  rcases Nat.eq_zero_or_pos (jsNum tx.confirmations) with h | h <;>
    simp [normalizeNodeTx, normalizeNodeTxRecent, h, Nat.pos_iff_ne_zero]
  omega

/-- Concrete Explorer-shaped status and payload for the C6 counterexample:
unconfirmed, but carrying a block height and a confirmation count. -/
def stC6 : RawStatus :=
  { confirmed := false, block_height := some 100, confirmations := some 5 }

/-- Concrete Explorer-shaped payload built on `stC6`. -/
def txC6 : RawTransaction :=
  { txid := "c6", status := some stC6 }

/-- Counterexample to C6 as stated: an Explorer-shaped payload with
`status.confirmed = false` but `status.block_height` present yields a
Pending record whose blockHeight is present (some 100) and whose
confirmations is 5, not 0. -/
theorem explorer_pending_blockheight_counterexample :
    (normalizeExplorerTx txC6).status = "pending" ∧
    ¬((normalizeExplorerTx txC6).confirmations = 0 ∧
      (normalizeExplorerTx txC6).blockheight = none) := by
  decide

/-- C6 (amended): an Explorer-shaped payload with `status.confirmed =
false` yields status Pending; confirmations is `status.confirmations`
defaulted to 0 in the single-transaction route and exactly 0 in the
recent-transactions route; blockHeight mirrors the payload's
`status.block_height` in both routes, so it may be present even when
Pending. -/
theorem explorer_pending_fields (tx : RawTransaction) (st : RawStatus)
    (hst : tx.status = some st) (hc : st.confirmed = false) :
    (normalizeExplorerTx tx).status = "pending" ∧
    (normalizeExplorerTx tx).confirmations = jsNum st.confirmations ∧
    (normalizeExplorerTx tx).blockheight = st.block_height ∧
    (normalizeExplorerTxRecent tx).status = "pending" ∧
    (normalizeExplorerTxRecent tx).confirmations = 0 ∧
    (normalizeExplorerTxRecent tx).blockheight = st.block_height := by
  simp [normalizeExplorerTx, normalizeExplorerTxRecent, hst, hc]

/-- Witness for C6 (amended), at the concrete unconfirmed payload `txC6`. -/
theorem explorer_pending_fields_witness :
    (normalizeExplorerTx txC6).status = "pending" ∧
    (normalizeExplorerTx txC6).confirmations = jsNum stC6.confirmations ∧
    (normalizeExplorerTx txC6).blockheight = stC6.block_height ∧
    (normalizeExplorerTxRecent txC6).status = "pending" ∧
    (normalizeExplorerTxRecent txC6).confirmations = 0 ∧
    (normalizeExplorerTxRecent txC6).blockheight = stC6.block_height :=
  explorer_pending_fields txC6 stC6 rfl rfl

/-- Concrete output for the C4 failing input: a `nulldata` output whose
disassembly payload token `zz` is malformed hex. -/
def outC4 : RawOutput :=
  { scriptPubKey := some { type := some "nulldata", asm := some "OP_RETURN zz" }
    value := some 42 }

/-- C4 (code-bug evaluation): the source's `catch` branch documents the
intended fallback — emit the full original disassembly when hex decoding
of the payload token fails — but `Buffer.from(hex, 'hex')` never throws:
on the malformed token `zz` it truncates to the empty buffer, the printable
text is empty, and the `|| hex` fallback emits the raw token `zz`, not the
full disassembly `OP_RETURN zz` the claim describes.  Normalization of the
record still proceeds (amount and script type are produced) and no failure
is surfaced. -/
theorem opReturn_malformed_hex_emits_token :
    bufferFromHex "zz" = [] ∧
    (normOutputNode outC4).opReturn = some "zz" ∧
    (normOutputNode outC4).opReturn ≠ some "OP_RETURN zz" ∧
    (normOutputNode outC4).amount = 42 ∧
    (normOutputNode outC4).scriptType = some "nulldata" := by
  decide

/-- Concrete `nulldata` output whose disassembly is `OP_RETURN 48656c6c6f`. -/
def outC7 : RawOutput :=
  { scriptPubKey := some { type := some "nulldata", asm := some "OP_RETURN 48656c6c6f" } }

/-- Concrete `nulldata` output whose disassembly is the bare `OP_RETURN`
with no payload token, carrying an address and an amount. -/
def outC7b : RawOutput :=
  { scriptPubKey := some
      { address := some "bc1qexample", type := some "nulldata", asm := some "OP_RETURN" }
    value := some 5 }

/-- C7: OP_RETURN text is emitted only when the output is tagged `nulldata`
with an available disassembly whose space-split form starts with the
literal token `OP_RETURN` followed by a truthy payload token; the
disassembly `OP_RETURN 48656c6c6f` yields decoded text `Hello`, and the
bare `OP_RETURN` yields an output with no OP_RETURN text whose address and
amount are still produced. -/
theorem opReturn_emission_condition :
    (∀ (output : RawOutput) (r : String), (normOutputNode output).opReturn = some r →
      ∃ spk a p1 rest, output.scriptPubKey = some spk ∧ spk.type = some "nulldata" ∧
        spk.asm = some a ∧ splitOnSpace a = "OP_RETURN" :: p1 :: rest ∧ p1 ≠ "") ∧
    (normOutputNode outC7).opReturn = some "Hello" ∧
    (normOutputNode outC7b).opReturn = none ∧
    (normOutputNode outC7b).address = some "bc1qexample" ∧
    (normOutputNode outC7b).amount = 5 := by
  refine ⟨?_, by decide, by decide, by decide, by decide⟩
  intro output r h
  replace h : opReturnNode output = some r := h
  unfold opReturnNode at h
  rcases hspk : output.scriptPubKey with _ | spk <;> rw [hspk] at h <;> dsimp only at h
  · exact absurd h (by simp)
  by_cases hty : spk.type = some "nulldata"
  · rw [if_pos hty] at h
    rcases hasm : spk.asm with _ | a <;> rw [hasm] at h <;> dsimp only at h
    · exact absurd h (by simp)
    by_cases ha : a ≠ ""
    · rw [if_pos ha] at h
      unfold opReturnFromAsm at h
      rcases hsp : splitOnSpace a with _ | ⟨p0, _ | ⟨p1, rest⟩⟩ <;> rw [hsp] at h <;>
        dsimp only at h
      · exact absurd h (by simp)
      · exact absurd h (by simp)
      by_cases hc : p0 = "OP_RETURN" ∧ p1 ≠ ""
      · exact ⟨spk, a, p1, rest, rfl, hty, hasm, hc.1 ▸ hsp, hc.2⟩
      · rw [if_neg hc] at h
        exact absurd h (by simp)
    · rw [if_neg ha] at h
      exact absurd h (by simp)
  · rw [if_neg hty] at h
    exact absurd h (by simp)

/-- Witness for C7: at the concrete output `outC7` the emission condition
produced by the theorem is realized. -/
theorem opReturn_emission_condition_witness :
    ∃ spk a p1 rest, outC7.scriptPubKey = some spk ∧ spk.type = some "nulldata" ∧
      spk.asm = some a ∧ splitOnSpace a = "OP_RETURN" :: p1 :: rest ∧ p1 ≠ "" :=
  opReturn_emission_condition.1 outC7 "Hello" (by decide)

/-- C9: the Node-RPC mempool-summary path maps the payload's `size` field
to the count and its `bytes` field to the virtual size, each defaulting to
0 when absent, and always reports 0 as the total fee for this source
shape. -/
theorem rpc_summary_field_mapping (mempoolInfo : MempoolInfoResult) :
    (summarizeRpc mempoolInfo).count = mempoolInfo.size.getD 0 ∧
    (summarizeRpc mempoolInfo).total_fee = 0 ∧
    (summarizeRpc mempoolInfo).vsize = mempoolInfo.bytes.getD 0 ∧
    (summarizeRpc mempoolInfo).source = "Local Bitcoin Node" :=
  ⟨jsNum_eq_getD _, rfl, jsNum_eq_getD _, rfl⟩

/-- C10: the Explorer-shaped recent-transactions path reports confirmations
as exactly 1 when `status.confirmed` is true and exactly 0 otherwise; in
particular the reported count never exceeds 1, whatever confirmation depth
the payload carries. -/
theorem recent_explorer_confirmations_flag (tx : RawTransaction) :
    (normalizeExplorerTxRecent tx).confirmations =
      (if (tx.status.map fun s => s.confirmed).getD false then 1 else 0) ∧
    (normalizeExplorerTxRecent tx).confirmations ≤ 1 ∧
    ((normalizeExplorerTxRecent tx).status = "confirmed" ↔
      (normalizeExplorerTxRecent tx).confirmations = 1) := by
  cases hb : (tx.status.map fun s => s.confirmed).getD false <;>
    simp [normalizeExplorerTxRecent, hb]

end MempoolApp
